import Mathlib

/-!
Verification of the pynagios plugin core (`src/pynagios/plugin.py`).

The repository sources contain only `plugin.py`.  The modules it imports
(`range.py`, `response.py`, `status.py`) are part of the repository but are
not among the sources, so the `Range`, `Response` and `Status` types are
modelled from the specification (each such definition carries a doc comment
saying so).  Everything else is translated directly from `plugin.py`.

Numeric values and range bounds are real numbers in the program (Python
floats used only through order comparisons); they are embedded as `Rat`.
-/

namespace Pynagios

/-- Modelled from the spec: `range.py` is not among the sources.  The
"range syntax error" raised on a malformed range string; it carries a
human-readable message (`e.message` in `check_pynagios_range`). -/
structure RangeValueError where
  message : String
deriving DecidableEq, Repr

/-- Modelled from the spec: `range.py` is not among the sources.  A parsed
Nagios threshold range: `start` (`none` = negative infinity), `stop`
(the source field `end`, a Lean keyword; `none` = positive infinity) and the
`inverted` flag set by a leading `@`. -/
structure Range where
  start : Option Rat
  stop : Option Rat
  inverted : Bool
deriving DecidableEq, Repr

/-- Modelled from the spec: membership evaluation `in_range(value)` returns
`true` exactly when the value is alerting: with `inverted = false` when the
value is NOT in `[start, stop]`, with `inverted = true` when it IS in
`[start, stop]`; an omitted (infinite) bound is always satisfied. -/
def Range.in_range (r : Range) (v : Rat) : Bool :=
  let lowOk : Bool :=
    match r.start with
    | none => true
    | some s => decide (s ≤ v)
  let highOk : Bool :=
    match r.stop with
    | none => true
    | some e => decide (v ≤ e)
  let inside := lowOk && highOk
  if r.inverted then inside else !inside

/-- The numeric value of a decimal digit, `none` for a non-digit. -/
def digitVal? (c : Char) : Option Nat :=
  if c.isDigit then some (c.toNat - 48) else none

/-- Reads a run of decimal digits into a number, failing on any non-digit
(an empty list yields the accumulator). -/
def digitsValAux (acc : Nat) : List Char → Option Nat
  | [] => some acc
  | c :: cs =>
    match digitVal? c with
    | some d => digitsValAux (10 * acc + d) cs
    | none => none

/-- Reads a nonempty run of decimal digits into a number. -/
def digitsVal? : List Char → Option Nat
  | [] => none
  | cs => digitsValAux 0 cs

/-- Splits a character list at the first occurrence of `sep`;
`none` when `sep` does not occur. -/
def splitAtChar (sep : Char) : List Char → Option (List Char × List Char)
  | [] => none
  | c :: cs =>
    if c = sep then some ([], cs)
    else
      match splitAtChar sep cs with
      | some (a, b) => some (c :: a, b)
      | none => none

/-- Modelled from the spec: numeric parsing of a range bound (the spec only
requires real-number bounds with parse failure on non-numeric text): a
decimal literal with optional leading minus sign and optional fractional
part. -/
def parseNum (cs : List Char) : Option Rat :=
  let signed : Bool × List Char :=
    match cs with
    | '-' :: rest => (true, rest)
    | _ => (false, cs)
  let mag : Option Rat :=
    match splitAtChar '.' signed.2 with
    | none => (digitsVal? signed.2).map (fun n => (n : Rat))
    | some (ip, fp) =>
      if ip.isEmpty && fp.isEmpty then none
      else
        match digitsValAux 0 ip, digitsValAux 0 fp with
        | some ipn, some fpn =>
          some ((ipn : Rat) + (fpn : Rat) / (10 : Rat) ^ fp.length)
        | _, _ => none
  mag.map (fun q => if signed.1 then -q else q)

/-- Modelled from the spec: the final validity check of range construction,
failing when both bounds are finite and `start > end`. -/
def mkRange (st sp : Option Rat) (inverted : Bool) :
    Except RangeValueError Range :=
  match st, sp with
  | some a, some b =>
    if a > b then .error ⟨"start must not be greater than end"⟩
    else .ok ⟨st, sp, inverted⟩
  | _, _ => .ok ⟨st, sp, inverted⟩

/-- Modelled from the spec: parsing the `start` bound: the token `~` means
negative infinity, an empty `start` defaults to `0`, otherwise the bound
must parse as a number. -/
def parseStartBound (cs : List Char) : Except RangeValueError (Option Rat) :=
  match cs with
  | ['~'] => .ok none
  | [] => .ok (some 0)
  | _ =>
    match parseNum cs with
    | some q => .ok (some q)
    | none => .error ⟨"invalid start bound"⟩

/-- Modelled from the spec: parsing the `end` bound: an omitted `end` after
the colon means positive infinity, otherwise the bound must parse as a
number. -/
def parseEndBound (cs : List Char) : Except RangeValueError (Option Rat) :=
  match cs with
  | [] => .ok none
  | _ =>
    match parseNum cs with
    | some q => .ok (some q)
    | none => .error ⟨"invalid end bound"⟩

/-- Modelled from the spec: `range.py` is not among the sources.  The range
string parser for the grammar `[@][start][:][end]`: an empty string fails;
a leading `@` sets `inverted`; without a colon the whole string is the `end`
bound and `start` defaults to `0`; with a colon but both sides empty it
fails; bounds parse per `parseStartBound`/`parseEndBound` and finally
`start > end` (both finite) fails. -/
def Range.parse (s : String) : Except RangeValueError Range :=
  match s.data with
  | [] => .error ⟨"empty range given"⟩
  | cs =>
    let stripped : Bool × List Char :=
      match cs with
      | '@' :: rest => (true, rest)
      | _ => (false, cs)
    let inverted := stripped.1
    match splitAtChar ':' stripped.2 with
    | none =>
      match parseNum stripped.2 with
      | some e => mkRange (some 0) (some e) inverted
      | none => .error ⟨"invalid end bound"⟩
    | some (a, b) =>
      if a.isEmpty && b.isEmpty then .error ⟨"empty range given"⟩
      else
        match parseStartBound a with
        | .error e => .error e
        | .ok st =>
          match parseEndBound b with
          | .error e => .error e
          | .ok sp => mkRange st sp inverted

/-- Modelled from the spec: `status.py` is not among the sources.  A status
pairs its fixed display text with its process exit code. -/
structure Status where
  name : String
  exit_code : Nat
deriving DecidableEq, Repr

/-- `plugin.py` line 16: `OK = Status("OK", 0)`. -/
def OK : Status := ⟨"OK", 0⟩

/-- `plugin.py` line 17: `WARNING = Status("WARN", 1)`. -/
def WARNING : Status := ⟨"WARN", 1⟩

/-- `plugin.py` line 18: `CRITICAL = Status("CRIT", 2)`. -/
def CRITICAL : Status := ⟨"CRIT", 2⟩

/-- `plugin.py` line 19: `UNKNOWN = Status("UNKNOWN", 3)`. -/
def UNKNOWN : Status := ⟨"UNKNOWN", 3⟩

/-- Modelled from the spec: `response.py` is not among the sources.  One
performance-data tuple `label=value[;warn[;crit[;min[;max]]]]`. -/
structure PerfDatum where
  label : String
  value : Rat
  warn : Option Rat
  crit : Option Rat
  minval : Option Rat
  maxval : Option Rat
deriving DecidableEq, Repr

/-- Modelled from the spec: `response.py` is not among the sources.  A
response bundles a status, an optional message and the ordered
performance-data tuples. -/
structure Response where
  status : Status
  message : Option String
  perf_data : List PerfDatum
deriving DecidableEq, Repr

/-- Modelled from the spec: the exit code of a response is simply
`status.exit_code`. -/
def Response.exit_code (r : Response) : Nat := r.status.exit_code

/-- An `optparse` option descriptor (`make_option` in `plugin.py`): the
short and long flags, the type name, and the destination attribute. -/
structure OptDecl where
  short : Option String
  long : Option String
  type : String
  dest : Option String
deriving DecidableEq, Repr

/-- An error raised through the standard option-error path of `optparse`
(`OptionValueError` in `plugin.py` line 28). -/
structure OptionValueError where
  message : String
deriving DecidableEq, Repr

/-- `plugin.py` lines 21-28: the type checker for the `pynagios_range`
option type parses the value as a `Range`; a `RangeValueError` is caught
and re-raised as an `OptionValueError` whose message is
`"options %s: %s" % (opt, e.message)`. -/
def check_pynagios_range (opt : String) (value : String) :
    Except OptionValueError Range :=
  match Range.parse value with
  | .ok r => .ok r
  | .error e => .error ⟨"options " ++ opt ++ ": " ++ e.message⟩

/-- A value stored in a class attribute dictionary: either an `optparse`
`Option` instance or any other attribute (methods, plain values),
abstracted by a tag. -/
inductive AttrVal where
  | opt (o : OptDecl)
  | other (tag : String)
deriving DecidableEq, Repr

/-- Whether an attribute value is an `Option` instance
(`isinstance(val, Option)` in `plugin.py` line 49). -/
def AttrVal.isOpt : AttrVal → Bool
  | .opt _ => true
  | .other _ => false

/-- A base class as seen by `PluginMeta.__new__`: it either has an
`_options` attribute (with its option list) or it does not
(`hasattr(base, "_options")` in `plugin.py` line 62). -/
structure BaseClass where
  _options : Option (List OptDecl)
deriving DecidableEq, Repr

/-- The result of creating a class through `PluginMeta.__new__`: the
remaining attributes (the `Option` attributes having been deleted) and the
collected `_options` list. -/
structure CreatedClass where
  attrs : List (String × AttrVal)
  _options : List OptDecl
deriving DecidableEq, Repr

/-- `plugin.py` line 67: the `OptionParser` of the class is built from the
collected option list (`OptionParser(option_list=options)`). -/
def CreatedClass.parserOptionList (c : CreatedClass) : List OptDecl :=
  c._options

/-- A created class always has the `_options` attribute, so as a base it
contributes its option list. -/
def CreatedClass.asBase (c : CreatedClass) : BaseClass :=
  ⟨some c._options⟩

/-- `plugin.py` lines 41-70, `PluginMeta.__new__`: every `Option`-valued
attribute has its `dest` set to the attribute key and is moved out of the
attribute dictionary into the option list; the `_options` of each base (when
present) is appended; the result stores `_options` and the option parser
built from it. -/
def PluginMeta.new (_name : String) (bases : List BaseClass)
    (attrs : List (String × AttrVal)) : CreatedClass :=
  let ownOpts : List OptDecl :=
    attrs.filterMap (fun kv =>
      match kv.2 with
      | .opt o => some { o with dest := some kv.1 }
      | .other _ => none)
  let remaining := attrs.filter (fun kv => !kv.2.isOpt)
  let inherited : List OptDecl :=
    (bases.filterMap (fun b => b._options)).flatten
  { attrs := remaining, _options := ownOpts ++ inherited }

/-- Building a chain of single-inheritance subclasses with `PluginMeta`:
the attribute dictionary of each level creates a class whose sole base is
the class of the previous level. -/
def foldChain (root : CreatedClass) :
    List (List (String × AttrVal)) → CreatedClass
  | [] => root
  | attrs :: rest => foldChain (PluginMeta.new ("Sub") [root.asBase] attrs) rest

/-- `plugin.py` line 80: `make_option("-H", "--hostname", type="string")`. -/
def hostnameOpt : OptDecl := ⟨some "-H", some "--hostname", "string", none⟩

/-- `plugin.py` line 81: `make_option("-w", "--warning",
type="pynagios_range")`. -/
def warningOpt : OptDecl := ⟨some "-w", some "--warning", "pynagios_range", none⟩

/-- `plugin.py` line 82: `make_option("-c", "--critical",
type="pynagios_range")`. -/
def criticalOpt : OptDecl := ⟨some "-c", some "--critical", "pynagios_range", none⟩

/-- `plugin.py` line 83: `make_option("-t", "--timeout", type="int")`. -/
def timeoutOpt : OptDecl := ⟨some "-t", some "--timeout", "int", none⟩

/-- `plugin.py` line 84: `make_option("-v", "--verbose", action="count")`. -/
def verbosityOpt : OptDecl := ⟨some "-v", some "--verbose", "count", none⟩

/-- `plugin.py` lines 80-84: the class attribute dictionary of the base
`Plugin` class as handed to `PluginMeta.__new__` (the non-`Option`
attributes, such as the methods, abstracted by tags). -/
def pluginClassAttrs : List (String × AttrVal) :=
  [ ("hostname", .opt hostnameOpt)
  , ("warning", .opt warningOpt)
  , ("critical", .opt criticalOpt)
  , ("timeout", .opt timeoutOpt)
  , ("verbosity", .opt verbosityOpt)
  , ("check", .other ("method check"))
  , ("response_for_value", .other ("method response_for_value"))
  ]

/-- The base `Plugin` class as created by the metaclass (its base `object`
has no `_options` attribute). -/
def PluginClass : CreatedClass :=
  PluginMeta.new ("Plugin") [⟨none⟩] pluginClassAttrs

/-- The parsed options object (`self.options`): the built-in keys; a
missing command-line flag leaves its option as `None`. -/
structure PluginOptions where
  hostname : Option String
  warning : Option Range
  critical : Option Range
  timeout : Option Int
  verbosity : Option Nat
deriving DecidableEq, Repr

/-- The error raised by the base `check()`
(`NotImplementedError` in `plugin.py` line 133). -/
inductive CheckError where
  | notImplemented (message : String)
deriving DecidableEq, Repr

/-- `plugin.py` lines 127-133, `Plugin.check`: the base implementation
always raises `NotImplementedError`. -/
def Plugin.check : Except CheckError Response :=
  .error (.notImplemented ("This method must be implemented by the plugin."))

/-- `plugin.py` lines 135-157, `Plugin.response_for_value`: status starts
as `OK`; if the critical range is configured and reports the value as
alerting the status is `CRITICAL`; otherwise if the warning range is
configured and reports the value as alerting the status is `WARNING`;
a new `Response` with that status and the given message is returned. -/
def Plugin.response_for_value (opts : PluginOptions) (value : Rat)
    (message : Option String) : Response :=
  let status :=
    if (match opts.critical with
        | some c => c.in_range value
        | none => false) then CRITICAL
    else if (match opts.warning with
        | some w => w.in_range value
        | none => false) then WARNING
    else OK
  { status := status, message := message, perf_data := [] }

/-! ## Theorems for the claims -/

/-- C3: the four status constants carry the fixed display-text/exit-code
pairs `OK = 0`, `WARN = 1`, `CRIT = 2`, `UNKNOWN = 3`, and the exit
code of a response always equals the exit code of its status, regardless of message or
performance-data content. -/
theorem claim_C3 :
    OK.name = "OK" ∧ OK.exit_code = 0 ∧
    WARNING.name = "WARN" ∧ WARNING.exit_code = 1 ∧
    CRITICAL.name = "CRIT" ∧ CRITICAL.exit_code = 2 ∧
    UNKNOWN.name = "UNKNOWN" ∧ UNKNOWN.exit_code = 3 ∧
    ∀ r : Response, r.exit_code = r.status.exit_code :=
  ⟨rfl, rfl, rfl, rfl, rfl, rfl, rfl, rfl, fun _ => rfl⟩

/-- Witness for C3 at a concrete input: a critical response with a message
and a performance tuple still exits with code `2`. -/
theorem claim_C3_witness :
    (Response.mk CRITICAL (some ("load high"))
      [⟨"load", 97, none, none, none, none⟩]).exit_code = 2 :=
  claim_C3.2.2.2.2.2.2.2.2
    (Response.mk CRITICAL (some ("load high"))
      [⟨"load", 97, none, none, none, none⟩])

/-- C5: invoking `check()` on the base `Plugin` class raises the
"not implemented" error; it never returns a `Response` (and, the result
being the raised error itself, the error is not caught by this core). -/
theorem claim_C5 :
    Plugin.check =
      Except.error (CheckError.notImplemented
        ("This method must be implemented by the plugin.")) ∧
    ∀ r : Response, Plugin.check ≠ Except.ok r := by
  refine ⟨rfl, fun r h => ?_⟩
  simp [Plugin.check] at h

/-- C2: if neither a warning range nor a critical range was configured,
`response_for_value(v, message)` returns a response whose status is `OK`
and whose message is the given message. -/
theorem claim_C2 (opts : PluginOptions) (v : Rat) (msg : Option String)
    (hw : opts.warning = none) (hc : opts.critical = none) :
    (Plugin.response_for_value opts v msg).status = OK ∧
    (Plugin.response_for_value opts v msg).message = msg := by
  unfold Plugin.response_for_value
  rw [hc, hw]
  exact ⟨rfl, rfl⟩

/-- Witness for C2 at a concrete input: no ranges configured, value `7`. -/
theorem claim_C2_witness :
    (Plugin.response_for_value ⟨none, none, none, none, none⟩ 7
        (some ("all good"))).status = OK ∧
    (Plugin.response_for_value ⟨none, none, none, none, none⟩ 7
        (some ("all good"))).message = some ("all good") :=
  claim_C2 ⟨none, none, none, none, none⟩ 7 (some ("all good")) rfl rfl

/-- C1: when both the warning and the critical range are configured and
both report the value as alerting via `in_range`, `response_for_value`
returns a `CRITICAL` response, never a `WARNING` one: the critical range
is evaluated first and wins the tie. -/
theorem claim_C1 (opts : PluginOptions) (v : Rat) (msg : Option String)
    (w c : Range) (hw : opts.warning = some w) (hc : opts.critical = some c)
    (hwa : w.in_range v = true) (hca : c.in_range v = true) :
    (Plugin.response_for_value opts v msg).status = CRITICAL ∧
    (Plugin.response_for_value opts v msg).status ≠ WARNING := by
  have hs : (Plugin.response_for_value opts v msg).status = CRITICAL := by
    unfold Plugin.response_for_value
    rw [hc]
    simp [hca]
  exact ⟨hs, by rw [hs]; decide⟩

/-- Witness for C1 at a concrete input: warning and critical both `[0, 5]`,
value `20` alerts both, and the status is `CRITICAL`. -/
theorem claim_C1_witness :
    (Plugin.response_for_value
      ⟨none, some ⟨some 0, some 5, false⟩, some ⟨some 0, some 5, false⟩,
        none, none⟩ 20 none).status = CRITICAL ∧
    (Plugin.response_for_value
      ⟨none, some ⟨some 0, some 5, false⟩, some ⟨some 0, some 5, false⟩,
        none, none⟩ 20 none).status ≠ WARNING :=
  claim_C1 _ 20 none ⟨some 0, some 5, false⟩ ⟨some 0, some 5, false⟩
    rfl rfl (by decide) (by decide)

/-- C9: whatever ranges are configured, the status produced by
`response_for_value` is one of `OK`, `WARNING`, `CRITICAL`; it is never
`UNKNOWN`. -/
theorem claim_C9 (opts : PluginOptions) (v : Rat) (msg : Option String) :
    ((Plugin.response_for_value opts v msg).status = OK ∨
     (Plugin.response_for_value opts v msg).status = WARNING ∨
     (Plugin.response_for_value opts v msg).status = CRITICAL) ∧
    (Plugin.response_for_value opts v msg).status ≠ UNKNOWN := by
  unfold Plugin.response_for_value
  dsimp only
  constructor
  · split
    · exact Or.inr (Or.inr rfl)
    · split
      · exact Or.inr (Or.inl rfl)
      · exact Or.inl rfl
  · split
    · decide
    · split
      · decide
      · decide

/-- Witness for C9 at a concrete input: with only a warning range `[0, 5]`
configured and value `20`, the status is among the three alert-free or
alerting statuses and is not `UNKNOWN`. -/
theorem claim_C9_witness :
    ((Plugin.response_for_value
        ⟨none, some ⟨some 0, some 5, false⟩, none, none, none⟩ 20 none).status = OK ∨
     (Plugin.response_for_value
        ⟨none, some ⟨some 0, some 5, false⟩, none, none, none⟩ 20 none).status = WARNING ∨
     (Plugin.response_for_value
        ⟨none, some ⟨some 0, some 5, false⟩, none, none, none⟩ 20 none).status = CRITICAL) ∧
    (Plugin.response_for_value
        ⟨none, some ⟨some 0, some 5, false⟩, none, none, none⟩ 20 none).status ≠ UNKNOWN :=
  claim_C9 ⟨none, some ⟨some 0, some 5, false⟩, none, none, none⟩ 20 none

/-- C6: a string whose `Range` parse raises a range syntax error is turned
by the `pynagios_range` option-type checker into the standard
option-value error of the argument parser, carrying the option name and the error
message; the raw range error never escapes. -/
theorem claim_C6 (opt value : String) (e : RangeValueError)
    (h : Range.parse value = .error e) :
    check_pynagios_range opt value =
      .error ⟨"options " ++ opt ++ ": " ++ e.message⟩ := by
  unfold check_pynagios_range
  rw [h]

/-- Witness for C6 at a concrete input: the malformed range `abc` passed
for the `-w` option. -/
theorem claim_C6_witness :
    check_pynagios_range ("-w") ("abc") =
      Except.error ⟨"options -w: invalid end bound"⟩ :=
  claim_C6 ("-w") ("abc") ⟨"invalid end bound"⟩ rfl

/-- The range parsed from the bare string `10`: start `0`, end `10`, both
inclusive, not inverted. -/
def range10 : Range := ⟨some 0, some 10, false⟩

/-- C7: the `Range` parsed from the string `10` has start `0` and end `10`
(both bounds inclusive, not inverted), and its `in_range v` is `true`
exactly when `v < 0` or `v > 10`. -/
theorem claim_C7 (v : Rat) :
    Range.parse ("10") = .ok range10 ∧
    (range10.in_range v = true ↔ v < 0 ∨ 10 < v) := by
  refine ⟨rfl, ?_⟩
  show (!(decide ((0 : Rat) ≤ v) && decide (v ≤ 10))) = true ↔ v < 0 ∨ 10 < v
  simp [not_and_or, not_le, or_comm]

/-- Witness for C7 at a concrete input: the value `42` is alerting for the
range parsed from `10`. -/
theorem claim_C7_witness : range10.in_range 42 = true :=
  (claim_C7 42).2.mpr (Or.inr (by decide))

/-- Whether a parse result is the range syntax error (the only failure the
parser can signal: its error type is `RangeValueError`). -/
def isRangeErr (r : Except RangeValueError Range) : Bool :=
  match r with
  | .error _ => true
  | .ok _ => false

/-- C8: parsing each of the strings ``, `:`, `abc` and `20:10` fails with
the range syntax error, and — the only failure channel of the parser being
`RangeValueError` — with no other error type. -/
theorem claim_C8 :
    isRangeErr (Range.parse ("")) = true ∧
    isRangeErr (Range.parse (":")) = true ∧
    isRangeErr (Range.parse ("abc")) = true ∧
    isRangeErr (Range.parse ("20:10")) = true :=
  ⟨rfl, rfl, rfl, rfl⟩

/-- The docstring example option (`plugin.py` line 119):
`make_option("--your-name", dest="your_name", type="string")`. -/
def yourNameOpt : OptDecl := ⟨none, some "--your-name", "string", some "your_name"⟩

/-- Unfolding the collected option list of a freshly created class. -/
theorem new_options_eq (n : String) (bases : List BaseClass)
    (attrs : List (String × AttrVal)) :
    (PluginMeta.new n bases attrs)._options =
      attrs.filterMap (fun kv =>
        match kv.2 with
        | .opt o => some { o with dest := some kv.1 }
        | .other _ => none) ++
      (bases.filterMap (fun b => b._options)).flatten := rfl

/-- Down a chain of subclasses, an option of the root class stays in the
option list of every descendant. -/
theorem foldChain_mono (levels : List (List (String × AttrVal)))
    (root : CreatedClass) (o : OptDecl) (h : o ∈ root._options) :
    o ∈ (foldChain root levels)._options := by
  induction levels generalizing root with
  | nil => exact h
  | cons attrs rest ih =>
    apply ih
    rw [new_options_eq]
    apply List.mem_append_right
    simp only [CreatedClass.asBase, List.filterMap, List.flatten]
    simpa using h

/-- C4: for a class created by `PluginMeta`, the option list handed to the
option parser is exactly the union of the freshly declared `Option`
declarations (with `dest` set to the attribute key) and the `_options`
lists of its bases; and down any chain of subclasses, the options declared
by every ancestor and the options of the root all appear in the parser
option list of the final class. -/
theorem claim_C4 :
    (∀ (n : String) (bases : List BaseClass) (attrs : List (String × AttrVal))
        (o : OptDecl),
      o ∈ (PluginMeta.new n bases attrs).parserOptionList ↔
        ((∃ k o0, (k, AttrVal.opt o0) ∈ attrs ∧ o = { o0 with dest := some k }) ∨
         (∃ b, b ∈ bases ∧ ∃ l, b._options = some l ∧ o ∈ l))) ∧
    (∀ (root : CreatedClass) (levels : List (List (String × AttrVal))),
      (∀ o, o ∈ root._options → o ∈ (foldChain root levels).parserOptionList) ∧
      (∀ attrs, attrs ∈ levels → ∀ k o0, (k, AttrVal.opt o0) ∈ attrs →
        { o0 with dest := some k } ∈ (foldChain root levels).parserOptionList)) := by
  constructor
  · intro n bases attrs o
    show o ∈ (PluginMeta.new n bases attrs)._options ↔ _
    rw [new_options_eq]
    simp only [List.mem_append, List.mem_filterMap, List.mem_flatten]
    constructor
    · rintro (⟨⟨k, av⟩, hmem, hf⟩ | ⟨l, ⟨b, hb, hbo⟩, ho⟩)
      · cases av with
        | opt o0 =>
          exact Or.inl ⟨k, o0, hmem, by simpa using hf.symm⟩
        | other t => simp at hf
      · exact Or.inr ⟨b, hb, l, hbo, ho⟩
    · rintro (⟨k, o0, hmem, rfl⟩ | ⟨b, hb, l, hbl, ho⟩)
      · exact Or.inl ⟨(k, AttrVal.opt o0), hmem, rfl⟩
      · exact Or.inr ⟨l, ⟨b, hb, hbl⟩, ho⟩
  · intro root levels
    constructor
    · intro o h
      exact foldChain_mono levels root o h
    · intro attrs hattrs k o0 hko
      induction levels generalizing root with
      | nil => cases hattrs
      | cons a rest ih =>
        cases hattrs with
        | head =>
          have h1 : { o0 with dest := some k } ∈
              (PluginMeta.new ("Sub") [root.asBase] attrs)._options := by
            rw [new_options_eq]
            apply List.mem_append_left
            exact List.mem_filterMap.mpr ⟨(k, AttrVal.opt o0), hko, rfl⟩
          exact foldChain_mono rest _ _ h1
        | tail _ htail =>
          exact ih _ htail

/-- Witness for C4 at a concrete input: the base `Plugin` class extended by
a subclass declaring `your_name` (the docstring example); the final parser
option list contains the inherited `--warning` option and the new
`--your-name` option (each with `dest` the attribute key), and the
membership characterisation holds for the inherited option. -/
theorem claim_C4_witness :
    ({ warningOpt with dest := some ("warning") } ∈
      (foldChain PluginClass
        [[("your_name", AttrVal.opt yourNameOpt)]]).parserOptionList) ∧
    ({ yourNameOpt with dest := some ("your_name") } ∈
      (foldChain PluginClass
        [[("your_name", AttrVal.opt yourNameOpt)]]).parserOptionList) ∧
    ({ warningOpt with dest := some ("warning") } ∈
      (PluginMeta.new ("Plugin") [⟨none⟩] pluginClassAttrs).parserOptionList) :=
  ⟨(claim_C4.2 PluginClass
      [[("your_name", AttrVal.opt yourNameOpt)]]).1
      { warningOpt with dest := some ("warning") } (by decide),
   (claim_C4.2 PluginClass
      [[("your_name", AttrVal.opt yourNameOpt)]]).2
      [("your_name", AttrVal.opt yourNameOpt)] (by decide)
      ("your_name") yourNameOpt (by decide),
   (claim_C4.1 ("Plugin") [⟨none⟩] pluginClassAttrs
      { warningOpt with dest := some ("warning") }).mpr
     (Or.inl ⟨("warning"), warningOpt, by decide, by decide⟩)⟩

/-- C10: class creation removes every `Option`-valued attribute from the
attribute dictionary (keeping the others), and each such option enters the
collected `_options` with its `dest` overwritten by the attribute key — any
`dest` the author gave is ignored. -/
theorem claim_C10 (n : String) (bases : List BaseClass)
    (attrs : List (String × AttrVal)) :
    (∀ kv, kv ∈ (PluginMeta.new n bases attrs).attrs → kv.2.isOpt = false) ∧
    (∀ kv, kv ∈ attrs → kv.2.isOpt = false →
      kv ∈ (PluginMeta.new n bases attrs).attrs) ∧
    (∀ (k : String) (o : OptDecl) (d : Option String),
      (k, AttrVal.opt { o with dest := d }) ∈ attrs →
      { o with dest := some k } ∈ (PluginMeta.new n bases attrs)._options) := by
  refine ⟨?_, ?_, ?_⟩
  · intro kv h
    have := List.of_mem_filter h
    simpa using this
  · intro kv h hkv
    apply List.mem_filter.mpr
    exact ⟨h, by simp [hkv]⟩
  · intro k o d h
    rw [new_options_eq]
    apply List.mem_append_left
    exact List.mem_filterMap.mpr ⟨(k, AttrVal.opt { o with dest := d }), h, rfl⟩

/-- Witness for C10 at a concrete input: creating the base `Plugin` class
itself; the method attribute `check` survives, the removed attributes are
all options, and the `--warning` option lands in `_options` with `dest`
`warning`. -/
theorem claim_C10_witness :
    ((("check", AttrVal.other ("method check")) ∈
      (PluginMeta.new ("Plugin") [⟨none⟩] pluginClassAttrs).attrs) ∧
     (AttrVal.other ("method check")).isOpt = false) ∧
    ({ warningOpt with dest := some ("warning") } ∈
      (PluginMeta.new ("Plugin") [⟨none⟩] pluginClassAttrs)._options) :=
  ⟨⟨(claim_C10 ("Plugin") [⟨none⟩] pluginClassAttrs).2.1
      ("check", AttrVal.other ("method check")) (by decide) (by decide),
    (claim_C10 ("Plugin") [⟨none⟩] pluginClassAttrs).1
      ("check", AttrVal.other ("method check")) (by decide)⟩,
   (claim_C10 ("Plugin") [⟨none⟩] pluginClassAttrs).2.2 ("warning") warningOpt
     none (by decide)⟩

end Pynagios
